import Mathlib

/-!
Verification of the back-office reconciliation core of the `management`
Django app: line-item pricing, document totals, invoice numbering, the
stock-reconciliation signal handlers, finance auto-posting, and the
append-only audit log.

Python `Decimal` values are modelled as rationals (every amount the code
handles is a 2-decimal-place decimal, and all intermediate operations —
sums, products with the GST multiplier, division by 100 — are exact at
the precision Decimal uses here).  `Decimal.quantize(Decimal("0.01"))`
rounds to a multiple of 1/100 with the default ROUND_HALF_EVEN mode,
modelled by `roundHalfEven`/`quantize2` below.
-/

/-- ROUND_HALF_EVEN to an integer: nearest integer, ties to the even one.
Models Python `Decimal`'s default rounding mode. -/
def roundHalfEven (q : ℚ) : ℤ :=
  let n : ℤ := ⌊q⌋
  let f : ℚ := q - n
  if f < 1/2 then n
  else if 1/2 < f then n + 1
  else if 2 ∣ n then n else n + 1

/-- `x.quantize(Decimal("0.01"))`: round to a multiple of 1/100, half-even. -/
def quantize2 (x : ℚ) : ℚ :=
  (roundHalfEven (x * 100) : ℚ) / 100

/-- A rational that is a whole number of hundredths (a 2dp decimal amount). -/
def IsCent (x : ℚ) : Prop := ∃ n : ℤ, x = (n : ℚ) / 100

/-- `models.InvoiceItem`: line item of an invoice.  `stock` holds the
`sl_no` of the referenced `Stock` row, if any. -/
structure InvoiceItem where
  pk : ℕ
  stock : Option ℕ
  quantity : ℕ
  price : ℚ
  discount : ℚ
  gst : ℚ
deriving DecidableEq

/-- `InvoiceItem.total` (models.py lines 158-165). -/
def InvoiceItem.total (it : InvoiceItem) : ℚ :=
  let base : ℚ := (it.quantity : ℚ) * it.price
  let discounted : ℚ := if base - it.discount < 0 then 0 else base - it.discount
  let gst_multiplier : ℚ := 1 + it.gst / 100
  quantize2 (discounted * gst_multiplier)

/-- `models.QuotationItem`: line item of a quotation (no stock linkage). -/
structure QuotationItem where
  quantity : ℕ
  price : ℚ
  discount : ℚ
  gst : ℚ
deriving DecidableEq

/-- `QuotationItem.total` (models.py lines 230-237). -/
def QuotationItem.total (it : QuotationItem) : ℚ :=
  let base : ℚ := (it.quantity : ℚ) * it.price
  let discounted : ℚ := if base - it.discount < 0 then 0 else base - it.discount
  let gst_multiplier : ℚ := 1 + it.gst / 100
  quantize2 (discounted * gst_multiplier)

/-- `Invoice` model fields that the save logic reads or writes. -/
structure Invoice where
  invoice_no : String
  customer_name : String
  discount : ℚ
  gst : ℚ
  total_amount : ℚ
  advance_amount : ℚ
  balance : ℚ
  payment_status : String
deriving DecidableEq

/-- `Invoice.calculate_total_with_items` (models.py lines 101-106). -/
def calculate_total_with_items (items : List InvoiceItem) : ℚ :=
  items.foldl (fun total it => total + it.total) 0

/-- `%04d` of Python: decimal digits left-padded with zeros to width 4. -/
def pad4 (n : ℕ) : String :=
  let s := toString n
  if s.length < 4 then String.mk (List.replicate (4 - s.length) '0') ++ s else s

/-- `order_by('invoice_no').last()`: the lexicographically greatest string
of the list, `none` when the list is empty. -/
def maxString : List String → Option String
  | [] => none
  | x :: xs => some (xs.foldl (fun a b => if a < b then b else a) x)

/-- `int(last_invoice.invoice_no.split('-')[-1])` on a well-formed
invoice number. -/
def lastDashNat (s : String) : ℕ :=
  (((s.splitOn "-").getLastD "").toNat?).getD 0

/-- The invoice-number generation of `Invoice.save` (models.py lines
110-124): filter stored numbers by the current year's prefix, take the
lexicographically last, increment its numeric suffix (1 when none). -/
def nextInvoiceNo (year : ℕ) (existing : List String) : String :=
  let yp := "INV-" ++ toString year ++ "-"
  let filtered := existing.filter (fun s => s.startsWith yp)
  match maxString filtered with
  | none => yp ++ pad4 1
  | some last => yp ++ pad4 (lastDashNat last + 1)

/-- `Invoice.save` (models.py lines 108-136): assign the invoice number
when unset, then recompute `total_amount` and `balance` from the line
items and the invoice-level discount, GST and advance.  `existing` is
the list of stored invoice numbers, `year` the current year, `items`
the invoice's persisted line items. -/
def Invoice.save (inv : Invoice) (existing : List String) (year : ℕ)
    (items : List InvoiceItem) : Invoice :=
  let invNo := if inv.invoice_no = "" then nextInvoiceNo year existing else inv.invoice_no
  let item_total := calculate_total_with_items items
  let discounted : ℚ := if item_total - inv.discount < 0 then 0 else item_total - inv.discount
  let gst_multiplier : ℚ := 1 + inv.gst / 100
  let total_amount := quantize2 (discounted * gst_multiplier)
  let balance := quantize2 (total_amount - inv.advance_amount)
  { inv with invoice_no := invNo, total_amount := total_amount, balance := balance }

/-- `Quotation` model fields that the save logic reads or writes. -/
structure Quotation where
  discount : ℚ
  gst : ℚ
  total : ℚ
deriving DecidableEq

/-- `Quotation.calculate_total_with_items` (models.py lines 192-197). -/
def quotation_total_with_items (items : List QuotationItem) : ℚ :=
  items.foldl (fun total it => total + it.total) 0

/-- `Quotation.save` (models.py lines 199-209): recompute `total` from
the line items and the quotation-level discount and GST. -/
def Quotation.save (q : Quotation) (items : List QuotationItem) : Quotation :=
  let item_total := quotation_total_with_items items
  let discounted : ℚ := if item_total - q.discount < 0 then 0 else item_total - q.discount
  let gst_multiplier : ℚ := 1 + q.gst / 100
  { q with total := quantize2 (discounted * gst_multiplier) }

/-!
## Stock Reconciliation Engine

The signal handlers of models.py lines 280-333.  The persistent state is
the `Stock` table (quantities keyed by `sl_no`) and the `InvoiceItem`
table (rows keyed by primary key); the module-level dictionary
`_invoice_item_old_values` holds pre-save snapshots keyed by item pk.
Stock quantities are modelled as integers: the handlers themselves
clamp at zero, which is what the non-negativity claims are about.
-/

/-- One entry of `_invoice_item_old_values`: the old item's stock id and
quantity, plus the captured old stock object's quantity (the handler
later writes `old_stock.quantity + old_qty` from this captured value). -/
structure OldValues where
  stock_id : Option ℕ
  quantity : ℕ
  stock_qty : ℤ
deriving DecidableEq

/-- The state the signal handlers read and write. -/
structure SigState where
  stocks : ℕ → ℤ
  items : ℕ → Option InvoiceItem
  old_values : ℕ → Option OldValues

/-- `track_old_invoice_item_values` (models.py lines 282-294): before an
update, snapshot the stored row's stock reference and quantity (and the
referenced stock's current quantity).  A row that does not exist is
skipped (`DoesNotExist` → `pass`); an insert has no stored row. -/
def track_old_invoice_item_values (s : SigState) (it : InvoiceItem) : SigState :=
  match s.items it.pk with
  | none => s
  | some old =>
    let captured_qty : ℤ :=
      match old.stock with
      | some oid => s.stocks oid
      | none => 0
    let snap : OldValues :=
      { stock_id := old.stock, quantity := old.quantity, stock_qty := captured_qty }
    { s with old_values := fun k => if k = it.pk then some snap else s.old_values k }

/-- `adjust_stock_on_invoice_item_save` (models.py lines 297-325). -/
def adjust_stock_on_invoice_item_save (s : SigState) (it : InvoiceItem)
    (created : Bool) : SigState :=
  match it.stock with
  | none => s
  | some sid =>
    if created then
      { s with stocks := fun k => if k = sid then max 0 (s.stocks sid - (it.quantity : ℤ)) else s.stocks k }
    else
      match s.old_values it.pk with
      | none => s
      | some old =>
        let s1 : SigState :=
          { s with old_values := fun k => if k = it.pk then none else s.old_values k }
        let s2 : SigState :=
          match old.stock_id with
          | some oid =>
            if oid ≠ sid then
              { s1 with stocks := fun k => if k = oid then old.stock_qty + (old.quantity : ℤ) else s1.stocks k }
            else s1
          | none => s1
        let qty_diff : ℤ := (it.quantity : ℤ) - (old.quantity : ℤ)
        if qty_diff ≠ 0 then
          { s2 with stocks := fun k => if k = sid then max 0 (s2.stocks sid - qty_diff) else s2.stocks k }
        else s2

/-- `adjust_stock_on_invoice_item_delete` (models.py lines 328-333). -/
def adjust_stock_on_invoice_item_delete (s : SigState) (it : InvoiceItem) : SigState :=
  match it.stock with
  | none => s
  | some sid =>
    { s with stocks := fun k => if k = sid then s.stocks sid + (it.quantity : ℤ) else s.stocks k }

/-- Saving an `InvoiceItem` row: the `pre_save` signal fires, the row is
written, then the `post_save` signal fires with `created` true exactly
when no row with this pk existed. -/
def saveInvoiceItem (s : SigState) (it : InvoiceItem) : SigState :=
  let created := (s.items it.pk).isNone
  let s1 := track_old_invoice_item_values s it
  let s2 : SigState := { s1 with items := fun k => if k = it.pk then some it else s1.items k }
  adjust_stock_on_invoice_item_save s2 it created

/-- Deleting an `InvoiceItem` row: the row is removed, then the
`post_delete` signal fires with the deleted instance. -/
def deleteInvoiceItem (s : SigState) (pk : ℕ) : SigState :=
  match s.items pk with
  | none => s
  | some it =>
    adjust_stock_on_invoice_item_delete
      { s with items := fun k => if k = pk then none else s.items k } it

/-!
## Finance auto-posting (admin.py `InvoiceAdmin.save_related`, lines 246-268)
-/

/-- `Finance` model fields the auto-posting logic uses. -/
structure Finance where
  date : ℕ
  transaction_type : String
  amount : ℚ
  reason : String
  description : String
deriving DecidableEq

/-- Leading-match test on character lists (`needle` begins `hay`). -/
def leadMatch : List Char → List Char → Bool
  | [], _ => true
  | _ :: _, [] => false
  | c :: cs, d :: ds => c = d && leadMatch cs ds

/-- `description__contains`: `needle` occurs contiguously in `hay`. -/
def strContainsSub (hay needle : String) : Bool :=
  (List.range (hay.data.length + 1)).any fun i => leadMatch needle.data (hay.data.drop i)

/-- The Finance-entry part of `InvoiceAdmin.save_related` (admin.py lines
251-268): if the invoice is PAID with positive total and no stored CREDIT
entry of the same amount mentions `"Invoice {invoice_no}"` in its
description, append a CREDIT entry dated today for the total. -/
def save_related_finance (finances : List Finance) (inv : Invoice) (today : ℕ) : List Finance :=
  if inv.payment_status = "PAID" ∧ 0 < inv.total_amount then
    if finances.any (fun f => f.transaction_type == "CREDIT"
        && decide (f.amount = inv.total_amount)
        && strContainsSub f.description ("Invoice " ++ inv.invoice_no)) then
      finances
    else
      finances ++ [{ date := today, transaction_type := "CREDIT",
                     amount := inv.total_amount, reason := "OTHER",
                     description := "Invoice " ++ inv.invoice_no ++ " - " ++ inv.customer_name }]
  else finances

/-!
## Audit trail immutability (models.py lines 243-273)
-/

/-- `AuditEvent` model fields. -/
structure AuditEvent where
  created_at : ℕ
  user_id : Option ℤ
  username : Option String
  action : String
  object_id : Option String
  object_repr : Option String
  message : String
deriving DecidableEq

/-- `AuditEvent.delete` (models.py lines 263-265): always raises
`PermissionError` before touching storage. -/
def AuditEvent.delete (_e : AuditEvent) : Except String Unit :=
  Except.error "AuditEvent records cannot be deleted"

/-- Attempting to delete an `AuditEvent` row from the stored records:
the row is removed only if the model's `delete` method completes. -/
def deleteAuditEventRecord (records : List AuditEvent) (e : AuditEvent) :
    Except String (List AuditEvent) :=
  match e.delete with
  | Except.error msg => Except.error msg
  | Except.ok _ => Except.ok (records.erase e)

/-!
## Helper lemmas
-/

theorem if_sub_lt_zero_eq_max (x y : ℚ) :
    (if x - y < 0 then 0 else x - y) = max (x - y) 0 := by
  rcases le_or_lt 0 (x - y) with h | h
  · rw [if_neg (not_lt.2 h), max_eq_left h]
  · rw [if_pos h, max_eq_right h.le]

theorem roundHalfEven_intCast (n : ℤ) : roundHalfEven (n : ℚ) = n := by
  have h0 : ((n : ℚ) - (⌊(n : ℚ)⌋ : ℚ)) = 0 := by
    rw [Int.floor_intCast]; ring
  simp only [roundHalfEven, Int.floor_intCast, h0]
  norm_num

theorem isCent_quantize2 (x : ℚ) : IsCent (quantize2 x) :=
  ⟨roundHalfEven (x * 100), rfl⟩

theorem IsCent.quantize2_self {x : ℚ} (h : IsCent x) : quantize2 x = x := by
  obtain ⟨n, rfl⟩ := h
  have h100 : ((n : ℚ) / 100) * 100 = (n : ℚ) := by
    field_simp
  rw [quantize2, h100, roundHalfEven_intCast]

theorem IsCent.sub {x y : ℚ} (hx : IsCent x) (hy : IsCent y) : IsCent (x - y) := by
  obtain ⟨m, rfl⟩ := hx
  obtain ⟨n, rfl⟩ := hy
  exact ⟨m - n, by push_cast; ring⟩

/-!
## Claim theorems
-/

/-- C4: for every line item (InvoiceItem or QuotationItem) with quantity q,
unit price p, item discount d and item GST percent g, the item's total is
round(max(q*p - d, 0) * (1 + g/100), 2dp); in particular q=2, p=500.00,
d=50.00, g=18 yields total 1121.00. -/
theorem line_item_total_formula :
    (∀ it : InvoiceItem,
      it.total = quantize2 (max ((it.quantity : ℚ) * it.price - it.discount) 0 * (1 + it.gst / 100)))
    ∧ (∀ it : QuotationItem,
      it.total = quantize2 (max ((it.quantity : ℚ) * it.price - it.discount) 0 * (1 + it.gst / 100)))
    ∧ InvoiceItem.total { pk := 1, stock := none, quantity := 2, price := 500, discount := 50, gst := 18 } = 1121 := by
  refine ⟨?_, ?_, ?_⟩
  · intro it
    rw [InvoiceItem.total, if_sub_lt_zero_eq_max]
  · intro it
    rw [QuotationItem.total, if_sub_lt_zero_eq_max]
  · norm_num [InvoiceItem.total, quantize2, roundHalfEven]

/-- C3: saving a document (Invoice or Quotation) sets its total to
round(max(T - D, 0) * (1 + G/100), 2dp) where T is the item total, D the
document discount and G the GST percent; an Invoice's balance is set to
round(total_amount - A, 2dp) for advance A and is not floored at zero:
it is negative whenever the advance (a 2dp amount) exceeds the total. -/
theorem document_totals_and_balance :
    ∀ (inv : Invoice) (ex : List String) (y : ℕ) (items : List InvoiceItem),
    (Invoice.save inv ex y items).total_amount
      = quantize2 (max (calculate_total_with_items items - inv.discount) 0 * (1 + inv.gst / 100))
    ∧ (Invoice.save inv ex y items).balance
      = quantize2 ((Invoice.save inv ex y items).total_amount - inv.advance_amount)
    ∧ (IsCent inv.advance_amount →
        (Invoice.save inv ex y items).total_amount < inv.advance_amount →
        (Invoice.save inv ex y items).balance < 0)
    ∧ ∀ (q : Quotation) (qitems : List QuotationItem),
        (Quotation.save q qitems).total
          = quantize2 (max (quotation_total_with_items qitems - q.discount) 0 * (1 + q.gst / 100)) := by
  intro inv ex y items
  refine ⟨?_, ?_, ?_, ?_⟩
  · rw [Invoice.save]
    simp only
    rw [if_sub_lt_zero_eq_max]
  · rw [Invoice.save]
  · intro hcent hlt
    have htot : IsCent (Invoice.save inv ex y items).total_amount := by
      rw [Invoice.save]; exact isCent_quantize2 _
    have hbal : (Invoice.save inv ex y items).balance
        = (Invoice.save inv ex y items).total_amount - inv.advance_amount := by
      rw [Invoice.save]
      exact (htot.sub hcent).quantize2_self
    rw [hbal]
    exact sub_neg.2 hlt
  · intro q qitems
    rw [Quotation.save]
    simp only
    rw [if_sub_lt_zero_eq_max]

theorem foldl_max_string (xs : List String) (a : String) :
    ((xs.foldl (fun x y => if x < y then y else x) a) = a
      ∨ (xs.foldl (fun x y => if x < y then y else x) a) ∈ xs)
    ∧ a ≤ xs.foldl (fun x y => if x < y then y else x) a
    ∧ ∀ x ∈ xs, x ≤ xs.foldl (fun x y => if x < y then y else x) a := by
  induction xs generalizing a with
  | nil => simp
  | cons b xs ih =>
    simp only [List.foldl_cons]
    obtain ⟨hmem, hle, hall⟩ := ih (if a < b then b else a)
    refine ⟨?_, ?_, ?_⟩
    · rcases hmem with h | h
      · by_cases hab : a < b
        · right
          rw [h, if_pos hab]
          exact List.mem_cons_self b xs
        · left
          rw [h, if_neg hab]
      · right
        exact List.mem_cons_of_mem b h
    · refine le_trans ?_ hle
      by_cases hab : a < b
      · rw [if_pos hab]
        exact le_of_lt hab
      · rw [if_neg hab]
    · intro x hx
      rcases List.mem_cons.1 hx with rfl | hx
      · refine le_trans ?_ hle
        by_cases hab : a < x
        · rw [if_pos hab]
        · rw [if_neg hab]
          exact le_of_not_lt hab
      · exact hall x hx

theorem maxString_spec (l : List String) (m : String) (h : maxString l = some m) :
    m ∈ l ∧ ∀ x ∈ l, x ≤ m := by
  match l with
  | [] => exact absurd h (by simp [maxString])
  | x :: xs =>
    have hm : m = xs.foldl (fun a b => if a < b then b else a) x := by
      simpa [maxString] using h.symm
    obtain ⟨hmem, hle, hall⟩ := foldl_max_string xs x
    subst hm
    constructor
    · rcases hmem with h' | h'
      · rw [h']
        exact List.mem_cons_self x xs
      · exact List.mem_cons_of_mem x h'
    · intro y hy
      rcases List.mem_cons.1 hy with rfl | hy
      · exact hle
      · exact hall y hy

/-- C5: on first save of an Invoice with no invoice_no, the assigned number
is "INV-{year}-{seq:04d}" where seq is one more than the numeric suffix of
the lexicographically highest stored invoice number carrying the
current-year prefix, or 1 when no such number exists; a save with an
invoice_no already set never changes it. -/
theorem invoice_numbering :
    ∀ (inv : Invoice) (ex : List String) (y : ℕ) (items : List InvoiceItem),
    (inv.invoice_no ≠ "" → (Invoice.save inv ex y items).invoice_no = inv.invoice_no)
    ∧ (inv.invoice_no = "" →
        ((ex.filter (fun n => n.startsWith ("INV-" ++ toString y ++ "-")) = [] →
            (Invoice.save inv ex y items).invoice_no = "INV-" ++ toString y ++ "-" ++ pad4 1)
         ∧ ∀ m, maxString (ex.filter (fun n => n.startsWith ("INV-" ++ toString y ++ "-"))) = some m →
             m ∈ ex ∧ m.startsWith ("INV-" ++ toString y ++ "-") = true
             ∧ (∀ x ∈ ex, x.startsWith ("INV-" ++ toString y ++ "-") = true → x ≤ m)
             ∧ (Invoice.save inv ex y items).invoice_no
                 = "INV-" ++ toString y ++ "-" ++ pad4 (lastDashNat m + 1))) := by
  intro inv ex y items
  constructor
  · intro hne
    rw [Invoice.save]
    simp only [if_neg hne]
  · intro he
    constructor
    · intro hfilter
      rw [Invoice.save, nextInvoiceNo]
      simp only [if_pos he, hfilter, maxString]
    · intro m hm
      obtain ⟨hmem, hmax⟩ := maxString_spec _ _ hm
      rw [List.mem_filter] at hmem
      refine ⟨hmem.1, hmem.2, ?_, ?_⟩
      · intro x hx hxp
        exact hmax x (List.mem_filter.2 ⟨hx, hxp⟩)
      · rw [Invoice.save, nextInvoiceNo]
        simp only [if_pos he, hm]

theorem leadMatch_append (l t : List Char) : leadMatch l (l ++ t) = true := by
  induction l with
  | nil => rfl
  | cons c cs ih => simp [leadMatch, ih]

theorem strContainsSub_of_data (hay needle : String) (t : List Char)
    (h : hay.data = needle.data ++ t) : strContainsSub hay needle = true := by
  rw [strContainsSub, List.any_eq_true]
  refine ⟨0, List.mem_range.2 (Nat.succ_pos _), ?_⟩
  simpa [h] using leadMatch_append needle.data t

theorem strContainsSub_invoice_desc (no name : String) :
    strContainsSub ("Invoice " ++ no ++ " - " ++ name) ("Invoice " ++ no) = true := by
  apply strContainsSub_of_data _ _ ((" - " ++ name).data)
  show ("Invoice ".data ++ no.data ++ " - ".data ++ name.data : List Char)
    = ("Invoice ".data ++ no.data) ++ (" - ".data ++ name.data)
  simp [List.append_assoc]

/-- The duplicate filter of `InvoiceAdmin.save_related` as a proposition:
a stored CREDIT entry of the same amount mentions this invoice. -/
theorem finance_match_iff (f : Finance) (inv : Invoice) :
    (f.transaction_type == "CREDIT" && decide (f.amount = inv.total_amount)
        && strContainsSub f.description ("Invoice " ++ inv.invoice_no)) = true
    ↔ (f.transaction_type = "CREDIT" ∧ f.amount = inv.total_amount
        ∧ strContainsSub f.description ("Invoice " ++ inv.invoice_no) = true) := by
  simp [Bool.and_eq_true, and_assoc]

/-- C6 (amended): a Finance CREDIT entry dated today for the invoice's
total is appended exactly when the invoice is PAID with positive total
and no stored Finance CREDIT entry of the same amount mentions
"Invoice {invoice_no}" in its description; the posting is idempotent, so
saving the same PAID invoice a second time appends nothing. -/
theorem finance_autopost_conditions :
    ∀ (fs : List Finance) (inv : Invoice) (today : ℕ),
    ((save_related_finance fs inv today).length = fs.length + 1 ↔
      (inv.payment_status = "PAID" ∧ 0 < inv.total_amount ∧
        ∀ f ∈ fs, ¬(f.transaction_type = "CREDIT" ∧ f.amount = inv.total_amount
          ∧ strContainsSub f.description ("Invoice " ++ inv.invoice_no) = true)))
    ∧ ((inv.payment_status = "PAID" ∧ 0 < inv.total_amount ∧
        ∀ f ∈ fs, ¬(f.transaction_type = "CREDIT" ∧ f.amount = inv.total_amount
          ∧ strContainsSub f.description ("Invoice " ++ inv.invoice_no) = true)) →
        save_related_finance fs inv today
          = fs ++ [{ date := today, transaction_type := "CREDIT",
                     amount := inv.total_amount, reason := "OTHER",
                     description := "Invoice " ++ inv.invoice_no ++ " - " ++ inv.customer_name }])
    ∧ save_related_finance (save_related_finance fs inv today) inv today
        = save_related_finance fs inv today := by
  intro fs inv today
  by_cases hp : inv.payment_status = "PAID" ∧ 0 < inv.total_amount
  · by_cases ha : fs.any (fun f => f.transaction_type == "CREDIT"
        && decide (f.amount = inv.total_amount)
        && strContainsSub f.description ("Invoice " ++ inv.invoice_no)) = true
    · have hres : save_related_finance fs inv today = fs := by
        rw [save_related_finance, if_pos hp, if_pos ha]
      obtain ⟨g, hg, hgp⟩ := List.any_eq_true.1 ha
      refine ⟨?_, ?_, ?_⟩
      · rw [hres]
        constructor
        · intro h
          exact absurd h (by omega)
        · intro h
          exact absurd ((finance_match_iff g inv).1 hgp) (h.2.2 g hg)
      · intro h
        exact absurd ((finance_match_iff g inv).1 hgp) (h.2.2 g hg)
      · rw [hres, hres]
    · have hres : save_related_finance fs inv today
          = fs ++ [{ date := today, transaction_type := "CREDIT",
                     amount := inv.total_amount, reason := "OTHER",
                     description := "Invoice " ++ inv.invoice_no ++ " - " ++ inv.customer_name }] := by
        rw [save_related_finance, if_pos hp, if_neg ha]
      have hcond : ∀ f ∈ fs, ¬(f.transaction_type = "CREDIT" ∧ f.amount = inv.total_amount
          ∧ strContainsSub f.description ("Invoice " ++ inv.invoice_no) = true) := by
        intro f hf hc
        exact ha (List.any_eq_true.2 ⟨f, hf, (finance_match_iff f inv).2 hc⟩)
      refine ⟨?_, fun _ => hres, ?_⟩
      · rw [hres]
        simp only [List.length_append, List.length_cons, List.length_nil, true_iff]
        exact ⟨hp.1, hp.2, hcond⟩
      · rw [hres]
        rw [save_related_finance, if_pos hp, if_pos ?hany]
        case hany =>
          refine List.any_eq_true.2 ⟨_, List.mem_append_right _ (List.mem_singleton.2 rfl), ?_⟩
          refine (finance_match_iff _ inv).2 ⟨rfl, rfl, ?_⟩
          exact strContainsSub_invoice_desc inv.invoice_no inv.customer_name
  · have hres : save_related_finance fs inv today = fs := by
      rw [save_related_finance, if_neg hp]
    refine ⟨?_, ?_, ?_⟩
    · rw [hres]
      constructor
      · intro h
        exact absurd h (by omega)
      · intro h
        exact absurd ⟨h.1, h.2.1⟩ hp
    · intro h
      exact absurd ⟨h.1, h.2.1⟩ hp
    · rw [hres, hres]

/-- Stored ledger used to refute C6 as stated: a CREDIT entry whose
description already mentions the invoice, but with a different amount. -/
def fsC6 : List Finance :=
  [{ date := 0, transaction_type := "CREDIT", amount := 100, reason := "OTHER",
     description := "Invoice INV-2025-0001 - A" }]

/-- Invoice used to refute C6 as stated: PAID, total 200, already
mentioned by the stored CREDIT entry of amount 100. -/
def invC6 : Invoice :=
  { invoice_no := "INV-2025-0001", customer_name := "B", discount := 0, gst := 0,
    total_amount := 200, advance_amount := 0, balance := 0, payment_status := "PAID" }

/-- C6 counterexample: the claim's condition — no existing Finance CREDIT
entry's description contains "Invoice {invoice_no}" — is false here (such
an entry exists), yet the code still creates a new entry, because its
duplicate filter also requires the amount to match.  So "created if and
only if ... no existing CREDIT entry's description contains it" fails. -/
theorem finance_autopost_claim_counterexample :
    (fsC6.any fun f => f.transaction_type == "CREDIT"
        && strContainsSub f.description ("Invoice " ++ invC6.invoice_no)) = true
    ∧ (save_related_finance fsC6 invC6 1).length = fsC6.length + 1 := by
  constructor
  · decide
  · decide

/-- C7: every attempt to delete an AuditEvent record fails with the
immutable-record-violation error, and never yields an updated store:
the stored records are necessarily unchanged by the attempt. -/
theorem auditEvent_delete_always_fails :
    ∀ (records : List AuditEvent) (e : AuditEvent),
    deleteAuditEventRecord records e = Except.error "AuditEvent records cannot be deleted"
    ∧ ∀ l : List AuditEvent, deleteAuditEventRecord records e ≠ Except.ok l := by
  intro records e
  constructor
  · rfl
  · intro l h
    exact Except.noConfusion h

theorem nonneg_if_update {f : ℕ → ℤ} (hf : ∀ k, 0 ≤ f k) (a : ℕ) (v : ℤ)
    (hv : 0 ≤ v) (k : ℕ) : 0 ≤ if k = a then v else f k := by
  split_ifs
  · exact hv
  · exact hf k

theorem track_stocks_eq (s : SigState) (it : InvoiceItem) :
    (track_old_invoice_item_values s it).stocks = s.stocks := by
  cases h : s.items it.pk <;> simp [track_old_invoice_item_values, h]

/-- C9: an InvoiceItem with no stock reference is inert to the stock
reconciliation engine — neither the post-save handler (create or update)
nor the post-delete handler, nor the full save/delete flows, change any
Stock record's quantity. -/
theorem null_stock_items_inert :
    ∀ (s : SigState) (it : InvoiceItem) (pk : ℕ) (created : Bool),
    it.stock = none →
    (adjust_stock_on_invoice_item_save s it created).stocks = s.stocks
    ∧ (adjust_stock_on_invoice_item_delete s it).stocks = s.stocks
    ∧ (saveInvoiceItem s it).stocks = s.stocks
    ∧ (s.items pk = some it → (deleteInvoiceItem s pk).stocks = s.stocks) := by
  intro s it pk created h
  have hadj : ∀ (s' : SigState) (c : Bool),
      (adjust_stock_on_invoice_item_save s' it c).stocks = s'.stocks := by
    intro s' c
    simp only [adjust_stock_on_invoice_item_save, h]
  refine ⟨hadj s created, ?_, ?_, ?_⟩
  · simp only [adjust_stock_on_invoice_item_delete, h]
  · rw [saveInvoiceItem, hadj]
    exact track_stocks_eq s it
  · intro hpk
    simp only [deleteInvoiceItem, hpk, adjust_stock_on_invoice_item_delete, h]

/-- C10: on an update (non-create post-save) of an item with a non-null
stock reference, if the module-level snapshot dictionary holds no entry
for the item's pk the handler performs no adjustment at all; and the
handler always leaves no snapshot behind for that pk (a recorded snapshot
is consumed by the `pop`), so one snapshot drives at most one update. -/
theorem missing_snapshot_no_adjustment :
    ∀ (s : SigState) (it : InvoiceItem) (sid : ℕ),
    it.stock = some sid →
    (s.old_values it.pk = none → adjust_stock_on_invoice_item_save s it false = s)
    ∧ (adjust_stock_on_invoice_item_save s it false).old_values it.pk = none := by
  intro s it sid h
  constructor
  · intro hov
    simp [adjust_stock_on_invoice_item_save, h, hov]
  · cases hov : s.old_values it.pk with
    | none =>
      simp [adjust_stock_on_invoice_item_save, h, hov]
    | some ov =>
      simp only [adjust_stock_on_invoice_item_save, h, hov, Bool.false_eq_true, if_false]
      rcases hsid : ov.stock_id with _ | oid <;> simp only [hsid] <;> split_ifs <;> simp
theorem adjust_save_stocks_nonneg (s : SigState) (it : InvoiceItem) (created : Bool)
    (hst : ∀ k, 0 ≤ s.stocks k)
    (hsnap : created = false → ∀ ov, s.old_values it.pk = some ov → 0 ≤ ov.stock_qty) :
    ∀ k, 0 ≤ (adjust_stock_on_invoice_item_save s it created).stocks k := by
  intro k
  cases hstock : it.stock with
  | none =>
    simp only [adjust_stock_on_invoice_item_save, hstock]
    exact hst k
  | some sid =>
    cases created with
    | true =>
      simp only [adjust_stock_on_invoice_item_save, hstock, if_true]
      exact nonneg_if_update hst sid _ (le_max_left 0 _) k
    | false =>
      cases hov : s.old_values it.pk with
      | none =>
        simp only [adjust_stock_on_invoice_item_save, hstock, hov, Bool.false_eq_true, if_false]
        exact hst k
      | some ov =>
        have hq : 0 ≤ ov.stock_qty := hsnap rfl ov hov
        simp only [adjust_stock_on_invoice_item_save, hstock, hov, Bool.false_eq_true, if_false]
        rcases hsid : ov.stock_id with _ | oid
        · simp only
          split_ifs <;> dsimp only
          · exact nonneg_if_update hst sid _ (le_max_left 0 _) k
          · exact hst k
        · simp only
          split_ifs <;> dsimp only
          · exact nonneg_if_update
              (fun k2 => nonneg_if_update hst oid _ (add_nonneg hq (Int.natCast_nonneg _)) k2)
              sid _ (le_max_left 0 _) k
          · exact nonneg_if_update hst sid _ (le_max_left 0 _) k
          · exact nonneg_if_update hst oid _ (add_nonneg hq (Int.natCast_nonneg _)) k
          · exact hst k

/-- C8: the Stock Reconciliation Engine preserves non-negativity of every
stock quantity across any InvoiceItem save (create or update) or delete:
every deduction is clamped at a zero floor (the handlers are total
functions — they clamp rather than raise). -/
theorem stock_quantity_nonneg_invariant :
    ∀ (s : SigState) (it : InvoiceItem) (pk : ℕ),
    (∀ k, 0 ≤ s.stocks k) →
    (∀ k, 0 ≤ (saveInvoiceItem s it).stocks k)
    ∧ (∀ k, 0 ≤ (deleteInvoiceItem s pk).stocks k) := by
  intro s it pk hst
  constructor
  · rw [saveInvoiceItem]
    apply adjust_save_stocks_nonneg
    · intro k2
      show 0 ≤ (track_old_invoice_item_values s it).stocks k2
      rw [track_stocks_eq]
      exact hst k2
    · intro hcreated ov hov
      cases hitem : s.items it.pk with
      | none => simp [hitem] at hcreated
      | some old =>
        have hov2 : (track_old_invoice_item_values s it).old_values it.pk = some ov := hov
        simp [track_old_invoice_item_values, hitem] at hov2
        rw [← hov2]
        cases hstock2 : old.stock with
        | none => simp
        | some oid =>
          simp only [hstock2]
          exact hst oid
  · intro k
    cases hitem : s.items pk with
    | none =>
      simp only [deleteInvoiceItem, hitem]
      exact hst k
    | some it2 =>
      simp only [deleteInvoiceItem, hitem]
      cases hstock2 : it2.stock with
      | none =>
        simp only [adjust_stock_on_invoice_item_delete, hstock2]
        exact hst k
      | some sid =>
        simp only [adjust_stock_on_invoice_item_delete, hstock2]
        exact nonneg_if_update hst sid _ (add_nonneg (hst sid) (Int.natCast_nonneg _)) k

/-- C2: against a fixed referenced stock record, creating an item deducts
its quantity (floored at zero), an update that keeps the stock reference
deducts only the delta new_qty - old_qty (floored at zero, so a decrease
restores stock), and deleting the item returns its stored quantity in
full. -/
theorem invoiceItem_lifecycle_stock_adjustment :
    ∀ (s : SigState) (it old : InvoiceItem) (sid : ℕ),
    it.stock = some sid →
    (s.items it.pk = none →
        (saveInvoiceItem s it).stocks sid = max 0 (s.stocks sid - (it.quantity : ℤ)))
    ∧ (s.items it.pk = some old → old.stock = some sid → 0 ≤ s.stocks sid →
        (saveInvoiceItem s it).stocks sid
          = max 0 (s.stocks sid - ((it.quantity : ℤ) - (old.quantity : ℤ))))
    ∧ (s.items it.pk = some old → old.stock = some sid →
        (deleteInvoiceItem s it.pk).stocks sid = s.stocks sid + (old.quantity : ℤ)) := by
  intro s it old sid hstock
  refine ⟨?_, ?_, ?_⟩
  · intro hitem
    simp [saveInvoiceItem, track_old_invoice_item_values, hitem,
          adjust_stock_on_invoice_item_save, hstock]
  · intro hitem hold hpos
    simp only [saveInvoiceItem, track_old_invoice_item_values, hitem, Option.isNone_some,
               adjust_stock_on_invoice_item_save, hstock, Bool.false_eq_true, if_false]
    simp only [hold]
    by_cases hd : (it.quantity : ℤ) - (old.quantity : ℤ) = 0
    · simp [hd, max_eq_right hpos]
    · simp [hd]
  · intro hitem hold
    simp [deleteInvoiceItem, hitem, adjust_stock_on_invoice_item_delete, hold]

/-- Stocks for the C1 scenario: Stock 1 ("A") and Stock 2 ("B"), both
quantity 10; no items, no snapshots. -/
def sC1 : SigState :=
  { stocks := fun k => if k = 1 then 10 else if k = 2 then 10 else 0,
    items := fun _ => none, old_values := fun _ => none }

/-- C1 scenario item as first created: quantity 4 against Stock 1. -/
def itC1a : InvoiceItem :=
  { pk := 7, stock := some 1, quantity := 4, price := 100, discount := 0, gst := 0 }

/-- C1 scenario item as updated: same pk and quantity, moved to Stock 2. -/
def itC1b : InvoiceItem :=
  { pk := 7, stock := some 2, quantity := 4, price := 100, discount := 0, gst := 0 }

/-- C1: evaluating the code on the claim's scenario.  Creating the item
takes Stock 1 from 10 to 6; moving the item to Stock 2 (same quantity)
restores Stock 1 to 10 but leaves Stock 2 at 10 — the handler adjusts the
new stock only by `new_qty - old_qty` (here 0), not by the full new
quantity, so Stock 2 is not 6 as the claim and spec require.  Deleting
the item afterwards then "restores" to Stock 2 a quantity that was never
deducted, inflating it to 14 — contradicting the delete handler's own
restore semantics. -/
theorem stock_change_keeps_new_stock_unadjusted :
    (saveInvoiceItem sC1 itC1a).stocks 1 = 6
    ∧ (saveInvoiceItem sC1 itC1a).stocks 2 = 10
    ∧ (saveInvoiceItem (saveInvoiceItem sC1 itC1a) itC1b).stocks 1 = 10
    ∧ (saveInvoiceItem (saveInvoiceItem sC1 itC1a) itC1b).stocks 2 = 10
    ∧ ¬((saveInvoiceItem (saveInvoiceItem sC1 itC1a) itC1b).stocks 2 = 6)
    ∧ (deleteInvoiceItem (saveInvoiceItem (saveInvoiceItem sC1 itC1a) itC1b) 7).stocks 2 = 14 := by
  decide

/-!
## Witnesses
-/

/-- Invoice used by the C3 witness: no items, advance 5.00. -/
def invC3 : Invoice :=
  { invoice_no := "INV-2025-0007", customer_name := "C", discount := 0, gst := 0,
    total_amount := 0, advance_amount := 5, balance := 0, payment_status := "UNPAID" }

/-- C3 witness: with no items and advance 5.00 the computed total is
smaller than the advance and the stored balance is negative. -/
theorem document_totals_and_balance_witness :
    IsCent invC3.advance_amount
    ∧ (Invoice.save invC3 [] 2025 []).total_amount < invC3.advance_amount
    ∧ (Invoice.save invC3 [] 2025 []).balance < 0 := by
  have hcent : IsCent invC3.advance_amount := ⟨500, by norm_num [invC3]⟩
  have htot : (Invoice.save invC3 [] 2025 []).total_amount < invC3.advance_amount := by
    norm_num [Invoice.save, invC3, calculate_total_with_items, quantize2, roundHalfEven]
  exact ⟨hcent, htot, (document_totals_and_balance invC3 [] 2025 []).2.2.1 hcent htot⟩

/-- Invoice with a pre-assigned number, for the C5 witness. -/
def invNumA : Invoice :=
  { invoice_no := "INV-2024-0007", customer_name := "C", discount := 0, gst := 0,
    total_amount := 0, advance_amount := 0, balance := 0, payment_status := "UNPAID" }

/-- Invoice with no number yet, for the C5 witness. -/
def invNumB : Invoice :=
  { invoice_no := "", customer_name := "C", discount := 0, gst := 0,
    total_amount := 0, advance_amount := 0, balance := 0, payment_status := "UNPAID" }

/-- C5 witness: a pre-assigned number is kept unchanged, and the first
invoice of a year with no stored numbers is assigned sequence 1. -/
theorem invoice_numbering_witness :
    invNumA.invoice_no ≠ ""
    ∧ (Invoice.save invNumA [] 2025 []).invoice_no = invNumA.invoice_no
    ∧ invNumB.invoice_no = ""
    ∧ ([] : List String).filter (fun n => n.startsWith ("INV-" ++ toString 2025 ++ "-")) = []
    ∧ (Invoice.save invNumB [] 2025 []).invoice_no = "INV-" ++ toString 2025 ++ "-" ++ pad4 1 := by
  refine ⟨by decide, (invoice_numbering invNumA [] 2025 []).1 (by decide), rfl, rfl,
         ((invoice_numbering invNumB [] 2025 []).2 rfl).1 rfl⟩

/-- Invoice for the C6 witness: PAID, total 50.00. -/
def invC6b : Invoice :=
  { invoice_no := "INV-2025-0002", customer_name := "B", discount := 0, gst := 0,
    total_amount := 50, advance_amount := 0, balance := 0, payment_status := "PAID" }

/-- C6 witness: posting against an empty ledger appends exactly the CREDIT
entry for the invoice total. -/
theorem finance_autopost_conditions_witness :
    (invC6b.payment_status = "PAID" ∧ 0 < invC6b.total_amount
      ∧ ∀ f ∈ ([] : List Finance), ¬(f.transaction_type = "CREDIT"
          ∧ f.amount = invC6b.total_amount
          ∧ strContainsSub f.description ("Invoice " ++ invC6b.invoice_no) = true))
    ∧ save_related_finance [] invC6b 1
        = [] ++ [{ date := 1, transaction_type := "CREDIT", amount := invC6b.total_amount,
                   reason := "OTHER",
                   description := "Invoice " ++ invC6b.invoice_no ++ " - " ++ invC6b.customer_name }] := by
  have hc : invC6b.payment_status = "PAID" ∧ 0 < invC6b.total_amount
      ∧ ∀ f ∈ ([] : List Finance), ¬(f.transaction_type = "CREDIT"
          ∧ f.amount = invC6b.total_amount
          ∧ strContainsSub f.description ("Invoice " ++ invC6b.invoice_no) = true) :=
    ⟨rfl, by decide, by simp⟩
  exact ⟨hc, (finance_autopost_conditions [] invC6b 1).2.1 hc⟩

/-- Stocks for the C2 witness: every stock at quantity 10. -/
def sC2w : SigState :=
  { stocks := fun _ => 10, items := fun _ => none, old_values := fun _ => none }

/-- C2 witness item as created: quantity 3 against Stock 1. -/
def itC2a : InvoiceItem :=
  { pk := 3, stock := some 1, quantity := 3, price := 100, discount := 0, gst := 0 }

/-- C2 witness item as updated: quantity raised to 5, same stock. -/
def itC2b : InvoiceItem :=
  { pk := 3, stock := some 1, quantity := 5, price := 100, discount := 0, gst := 0 }

/-- C2 witness: Stock(10), create item qty 3 → 7, raise to qty 5 → 5,
delete → 10, each step given by the lifecycle theorem. -/
theorem invoiceItem_lifecycle_stock_adjustment_witness :
    (saveInvoiceItem sC2w itC2a).stocks 1 = max 0 (sC2w.stocks 1 - (itC2a.quantity : ℤ))
    ∧ (saveInvoiceItem (saveInvoiceItem sC2w itC2a) itC2b).stocks 1
        = max 0 ((saveInvoiceItem sC2w itC2a).stocks 1
            - ((itC2b.quantity : ℤ) - (itC2a.quantity : ℤ)))
    ∧ (deleteInvoiceItem (saveInvoiceItem (saveInvoiceItem sC2w itC2a) itC2b) itC2b.pk).stocks 1
        = (saveInvoiceItem (saveInvoiceItem sC2w itC2a) itC2b).stocks 1 + (itC2b.quantity : ℤ)
    ∧ (saveInvoiceItem sC2w itC2a).stocks 1 = 7
    ∧ (saveInvoiceItem (saveInvoiceItem sC2w itC2a) itC2b).stocks 1 = 5
    ∧ (deleteInvoiceItem (saveInvoiceItem (saveInvoiceItem sC2w itC2a) itC2b) itC2b.pk).stocks 1 = 10 := by
  refine ⟨(invoiceItem_lifecycle_stock_adjustment sC2w itC2a itC2a 1 rfl).1 rfl,
          (invoiceItem_lifecycle_stock_adjustment (saveInvoiceItem sC2w itC2a) itC2b itC2a 1
            rfl).2.1 (by decide) rfl (by decide),
          (invoiceItem_lifecycle_stock_adjustment (saveInvoiceItem (saveInvoiceItem sC2w itC2a)
            itC2b) itC2b itC2b 1 rfl).2.2 (by decide) rfl,
          by decide, by decide, by decide⟩

/-- Stocks for the C8 witness. -/
def sC8 : SigState :=
  { stocks := fun k => if k = 1 then 2 else 0, items := fun _ => none,
    old_values := fun _ => none }

/-- C8 witness item: quantity 9 against Stock 1 — an oversell, clamped. -/
def itC8 : InvoiceItem :=
  { pk := 4, stock := some 1, quantity := 9, price := 100, discount := 0, gst := 0 }

/-- C8 witness: deducting 9 from a stock of 2 stays non-negative. -/
theorem stock_quantity_nonneg_invariant_witness :
    (∀ k, 0 ≤ sC8.stocks k)
    ∧ 0 ≤ (saveInvoiceItem sC8 itC8).stocks 1
    ∧ 0 ≤ (deleteInvoiceItem sC8 4).stocks 1 := by
  have h : ∀ k, 0 ≤ sC8.stocks k := by
    intro k
    simp only [sC8]
    split_ifs <;> decide
  exact ⟨h, (stock_quantity_nonneg_invariant sC8 itC8 4 h).1 1,
         (stock_quantity_nonneg_invariant sC8 itC8 4 h).2 1⟩

/-- State for the C9 witness. -/
def sC9 : SigState :=
  { stocks := fun _ => 10, items := fun _ => none, old_values := fun _ => none }

/-- C9 witness item: no stock reference. -/
def itC9 : InvoiceItem :=
  { pk := 5, stock := none, quantity := 2, price := 100, discount := 0, gst := 0 }

/-- C9 witness: saving a stockless item leaves the stocks table as is. -/
theorem null_stock_items_inert_witness :
    itC9.stock = none
    ∧ (saveInvoiceItem sC9 itC9).stocks = sC9.stocks
    ∧ (adjust_stock_on_invoice_item_delete sC9 itC9).stocks = sC9.stocks :=
  ⟨rfl, (null_stock_items_inert sC9 itC9 0 true rfl).2.2.1,
   (null_stock_items_inert sC9 itC9 0 true rfl).2.1⟩

/-- State for the C10 witness: no snapshots recorded. -/
def sC10 : SigState :=
  { stocks := fun _ => 10, items := fun _ => none, old_values := fun _ => none }

/-- C10 witness item: stock reference present. -/
def itC10 : InvoiceItem :=
  { pk := 6, stock := some 1, quantity := 2, price := 100, discount := 0, gst := 0 }

/-- C10 witness: an update post-save with no recorded snapshot for the pk
changes nothing, and afterwards there is still no snapshot for the pk. -/
theorem missing_snapshot_no_adjustment_witness :
    itC10.stock = some 1
    ∧ sC10.old_values itC10.pk = none
    ∧ adjust_stock_on_invoice_item_save sC10 itC10 false = sC10
    ∧ (adjust_stock_on_invoice_item_save sC10 itC10 false).old_values itC10.pk = none :=
  ⟨rfl, rfl, (missing_snapshot_no_adjustment sC10 itC10 1 rfl).1 rfl,
   (missing_snapshot_no_adjustment sC10 itC10 1 rfl).2⟩

/-- Line item for the C4 witness: qty 2, price 500, discount 50, GST 18. -/
def itC4 : InvoiceItem :=
  { pk := 1, stock := none, quantity := 2, price := 500, discount := 50, gst := 18 }

/-- C4 witness: the formula instantiated at the spec's worked example. -/
theorem line_item_total_formula_witness :
    InvoiceItem.total itC4
      = quantize2 (max ((itC4.quantity : ℚ) * itC4.price - itC4.discount) 0
          * (1 + itC4.gst / 100)) :=
  line_item_total_formula.1 itC4

/-- Audit record for the C7 witness. -/
def evC7 : AuditEvent :=
  { created_at := 0, user_id := some 1, username := some "admin", action := "DELETE",
    object_id := some "1", object_repr := some "Invoice INV-2025-0001", message := "" }

/-- C7 witness: deleting a concrete audit record from a concrete store
fails with the immutable-record error and yields no updated store. -/
theorem auditEvent_delete_always_fails_witness :
    deleteAuditEventRecord [evC7] evC7 = Except.error "AuditEvent records cannot be deleted"
    ∧ deleteAuditEventRecord [evC7] evC7 ≠ Except.ok [] :=
  ⟨(auditEvent_delete_always_fails [evC7] evC7).1,
   (auditEvent_delete_always_fails [evC7] evC7).2 []⟩
